import Mathlib

/-!
Shallow embedding of the task-keeper model layer (src/app/models.py) and
proofs of the specification claims about it.

Strings are modelled as lists of characters.  Timestamps are modelled as
natural numbers (the code only ever stores `datetime.now(UTC)` values and
never inspects them).  Exceptions are modelled with `Except`.
-/

namespace TaskKeeper

/-- Strings of the embedded program: lists of characters. -/
abbrev Str := List Char

/-- The Python exception kinds raised by the model layer. -/
inductive PyError
  | valueError
  | attributeError
deriving DecidableEq

/-- Python regular-expression whitespace class over the ASCII range:
space, tab, newline, carriage return, vertical tab, form feed
(the character class that `\S` in `models.py` complements). -/
def isPySpace (c : Char) : Bool :=
  c = ' ' || c = '\t' || c = '\n' || c = '\r' || c = '\x0b' || c = '\x0c'

/-- Tokens of the two regular expressions appearing in `models.py`:
a `\S+` atom and a literal character. -/
inductive RTok
  | plusNonSpace
  | lit (c : Char)
deriving DecidableEq

/-- Backtracking matcher for a sequence of regex tokens against an entire
string (the language of `tok1 tok2 ...` anchored on both sides). -/
def matchToks : List RTok → Str → Bool
  | ps, [] => ps.isEmpty
  | [], _ :: _ => false
  | RTok.lit c :: ps, d :: l => (c == d) && matchToks ps l
  | RTok.plusNonSpace :: ps, d :: l =>
      !isPySpace d && (matchToks ps l || matchToks (RTok.plusNonSpace :: ps) l)

/-- Python `re.match` semantics for a pattern of the form `^toks$`:
the `$` anchor matches at the end of the string, or just before a
newline that ends the string. -/
def reMatchPy (ps : List RTok) (s : Str) : Bool :=
  matchToks ps s ||
    (match s.getLast? with
     | some c => (c == '\n') && matchToks ps s.dropLast
     | none => false)

/-- `USERNAME_REGEX = re.compile(r"^\S+$")` from `models.py`. -/
def USERNAME_REGEX : List RTok := [RTok.plusNonSpace]

/-- `EMAIL_REGEX = re.compile(r"^\S+@\S+\.\S+$")` from `models.py`. -/
def EMAIL_REGEX : List RTok :=
  [RTok.plusNonSpace, RTok.lit '@', RTok.plusNonSpace, RTok.lit '.', RTok.plusNonSpace]

/-- `check_length(attribute, length)` from `models.py`:
`bool(attribute) and len(attribute) <= length`.  (`attribute` is a Lean
keyword, so the first parameter is named `attr` here.) -/
def check_length (attr : Str) (length : Nat) : Bool :=
  !attr.isEmpty && attr.length ≤ length

/-- Salted one-way hash produced by `werkzeug.generate_password_hash`
(an external collaborator), modelled as an idealised injective hash:
the salt together with the hashed text. -/
structure PWHash where
  salt : Nat
  data : Str
deriving DecidableEq

/-- `generate_password_hash(password)`: the salt is the library's
nondeterministic choice, passed as an explicit parameter. -/
def generate_password_hash (salt : Nat) (password : Str) : PWHash :=
  ⟨salt, password⟩

/-- Length of the encoded hash string werkzeug produces
(`method$salt$hexdigest`): a fixed-size encoding independent of the
password, far below the 256-character defensive bound in `models.py`. -/
def pwhashLen (_ : PWHash) : Nat := 102

/-- `werkzeug.check_password_hash(pwhash, password)`: on a stored hash it
reports whether `password` hashes to it; called with `None` (no password
ever set) it raises `AttributeError` (`None` has no `split`). -/
def check_password_hash : Option PWHash → Str → Except PyError Bool
  | none, _ => Except.error PyError.attributeError
  | some h, password => Except.ok (h.data == password)

/-- The `User` model's columns (`user` table).  Timestamp column defaults
are modelled as 0. -/
structure User where
  id : Nat := 0
  _username : Option Str := none
  _email : Option Str := none
  password_hash : Option PWHash := none
  member_since : Nat := 0
  last_seen : Nat := 0
  is_admin : Bool := false
deriving DecidableEq

/-- The `username` property getter. -/
def User.username (user : User) : Option Str := user._username

/-- The `username` property setter: raises `ValueError` unless
`check_length(username, 64)` holds and `USERNAME_REGEX` matches
(the source's local `is_valid_length` is inlined). -/
def User.usernameSet (user : User) (username : Str) : Except PyError User :=
  if !(check_length username 64) || !(reMatchPy USERNAME_REGEX username) then
    Except.error PyError.valueError
  else
    Except.ok { user with _username := some username }

/-- The `email` property getter. -/
def User.email (user : User) : Option Str := user._email

/-- The `email` property setter: raises `ValueError` unless
`check_length(email, 64)` holds and `EMAIL_REGEX` matches. -/
def User.emailSet (user : User) (email : Str) : Except PyError User :=
  if !(check_length email 64) || !(reMatchPy EMAIL_REGEX email) then
    Except.error PyError.valueError
  else
    Except.ok { user with _email := some email }

/-- The `password` property getter: always raises `AttributeError`. -/
def User.passwordGet (_ : User) : Except PyError Str :=
  Except.error PyError.attributeError

/-- The `password` property setter: raises `ValueError` on a falsy (empty)
password, hashes it, defensively rejects a hash longer than 256
characters, and stores the hash. -/
def User.passwordSet (salt : Nat) (user : User) (password : Str) :
    Except PyError User :=
  if password.isEmpty then
    Except.error PyError.valueError
  else
    let hashed_password := generate_password_hash salt password
    if pwhashLen hashed_password > 256 then
      Except.error PyError.valueError
    else
      Except.ok { user with password_hash := some hashed_password }

/-- `User.verify_password(password)`: delegates to
`check_password_hash(self.password_hash, password)`. -/
def User.verify_password (user : User) (password : Str) : Except PyError Bool :=
  check_password_hash user.password_hash password

/-- The SQLAlchemy session shared by all entities: the committed store and
the rows added/deleted since the last commit, for one entity type. -/
structure DbSession (α : Type) where
  committed : List α
  adds : List α
  dels : List α
deriving DecidableEq

/-- The store the database would hold if the session's pending changes
were flushed: committed rows minus pending deletes, plus pending adds. -/
def DbSession.flushed [DecidableEq α] (s : DbSession α) : List α :=
  s.committed.filter (fun r => !(decide (r ∈ s.dels))) ++ s.adds

/-- `sqlalchemy.exc.IntegrityError`, raised by `db.session.commit()` when
a uniqueness constraint is violated. -/
inductive IntegrityError
  | unique
deriving DecidableEq

/-- `db.session.commit()`: applies the pending changes unless the
resulting store violates a constraint (`violates`), in which case it
raises `IntegrityError` and leaves the committed store untouched. -/
def rawCommit [DecidableEq α] (violates : List α → Bool) (s : DbSession α) :
    Except IntegrityError (DbSession α) :=
  if violates s.flushed then Except.error IntegrityError.unique
  else Except.ok ⟨s.flushed, [], []⟩

/-- `db.session.rollback()`: discards the pending changes, keeping the
committed store. -/
def sessionRollback (s : DbSession α) : DbSession α :=
  ⟨s.committed, [], []⟩

/-- `BaseModel.__commit`: tries `db.session.commit()` and, on
`IntegrityError`, rolls the session back, swallowing the exception. -/
def BaseModel.commitPrivate [DecidableEq α] (violates : List α → Bool)
    (s : DbSession α) : DbSession α :=
  match rawCommit violates s with
  | Except.ok s' => s'
  | Except.error _ => sessionRollback s

/-- `BaseModel.save`: `db.session.add(self); self.__commit(); return self`. -/
def BaseModel.save [DecidableEq α] (violates : List α → Bool) (e : α)
    (s : DbSession α) : α × DbSession α :=
  (e, BaseModel.commitPrivate violates { s with adds := s.adds ++ [e] })

/-- `BaseModel.delete`: `db.session.delete(self); self.__commit()`. -/
def BaseModel.delete [DecidableEq α] (violates : List α → Bool) (e : α)
    (s : DbSession α) : DbSession α :=
  BaseModel.commitPrivate violates { s with dels := s.dels ++ [e] }

/-- The `TodoList` model's columns (the to-do list entity). -/
structure TodoList where
  id : Nat := 0
  _title : Option Str := none
  created_at : Nat := 0
  creator : Option Str := none
deriving DecidableEq

/-- The placeholder title `"untitled"` used by `TodoList.__init__`. -/
def untitled : Str := ['u', 'n', 't', 'i', 't', 'l', 'e', 'd']

/-- The `title` property getter. -/
def TodoList.title (l : TodoList) : Option Str := l._title

/-- The `title` property setter: raises `ValueError` unless
`check_length(title, 128)` holds. -/
def TodoList.titleSet (l : TodoList) (title : Str) : Except PyError TodoList :=
  if !(check_length title 128) then Except.error PyError.valueError
  else Except.ok { l with _title := some title }

/-- Python `x or d` for an optional string argument: `None` and the empty
string are falsy and give `d`. -/
def pyOrStr (v : Option Str) (d : Str) : Str :=
  match v with
  | none => d
  | some t => if t.isEmpty then d else t

/-- `TodoList.__init__(title=None, creator=None, created_at=None)`:
assigns `title or "untitled"` through the validating setter, then the
creator and the creation time (`created_at or datetime.now(UTC)`). -/
def TodoList.init (title : Option Str) (creator : Option Str)
    (created_at : Option Nat) (now : Nat) : Except PyError TodoList :=
  match TodoList.titleSet {} (pyOrStr title untitled) with
  | Except.error e => Except.error e
  | Except.ok l =>
      Except.ok { l with creator := creator, created_at := created_at.getD now }

/-- The `Todolist` model's columns (the to-do item entity).  The column
defaults `is_finished=False` and `finished_at=None` are part of the
record's default values. -/
structure Todolist where
  id : Nat := 0
  description : Str := []
  created_at : Nat := 0
  finished_at : Option Nat := none
  is_finished : Bool := false
  creator : Option Str := none
  Todolist_id : Option Nat := none
deriving DecidableEq

/-- `Todolist.__init__(description, Todolist_id, creator=None,
created_at=None)`; `is_finished` and `finished_at` take their column
defaults `False` and `None`. -/
def Todolist.init (description : Str) (listId : Nat) (creator : Option Str)
    (created_at : Option Nat) (now : Nat) : Todolist :=
  { description := description, Todolist_id := some listId,
    creator := creator, created_at := created_at.getD now }

/-- `Todolist.finished()`: sets `is_finished = True` and stamps
`finished_at = datetime.now(UTC)` (then saves; saving changes no field). -/
def Todolist.finished (now : Nat) (t : Todolist) : Todolist :=
  { t with is_finished := true, finished_at := some now }

/-- `Todolist.reopen()`: sets `is_finished = False` and clears
`finished_at` (then saves; saving changes no field). -/
def Todolist.reopen (t : Todolist) : Todolist :=
  { t with is_finished := false, finished_at := none }

/-- `Todolist.status`: `"finished" if self.is_finished else "open"`,
modelled as the boolean `is_finished`-driven choice. -/
def Todolist.status (t : Todolist) : Str :=
  if t.is_finished then ['f', 'i', 'n', 'i', 's', 'h', 'e', 'd']
  else ['o', 'p', 'e', 'n']

/-- The item states reachable through the operations of the `Todolist`
class: construction, `finished()` and `reopen()` (`save()` mutates no
field). -/
inductive Todolist.Reachable : Todolist → Prop
  | init (description : Str) (listId : Nat) (creator : Option Str)
      (created_at : Option Nat) (now : Nat) :
      Todolist.Reachable (Todolist.init description listId creator created_at now)
  | finish (t : Todolist) (now : Nat) :
      Todolist.Reachable t → Todolist.Reachable (Todolist.finished now t)
  | reopen (t : Todolist) :
      Todolist.Reachable t → Todolist.Reachable (Todolist.reopen t)

/-- The lazy `todos` relationship of a `TodoList`, read against a store of
item rows: the items whose `Todolist_id` foreign key points at this list. -/
def TodoList.todos (store : List Todolist) (l : TodoList) : List Todolist :=
  store.filter (fun t => t.Todolist_id == some l.id)

/-- `TodoList.todo_count`: `self.todos.order_by(None).count()`. -/
def TodoList.todo_count (store : List Todolist) (l : TodoList) : Nat :=
  (TodoList.todos store l).length

/-- `TodoList.finished_count`: `self.todos.filter_by(is_finished=True).count()`. -/
def TodoList.finished_count (store : List Todolist) (l : TodoList) : Nat :=
  ((TodoList.todos store l).filter (fun t => t.is_finished)).length

/-- `TodoList.open_count`: `self.todos.filter_by(is_finished=False).count()`. -/
def TodoList.open_count (store : List Todolist) (l : TodoList) : Nat :=
  ((TodoList.todos store l).filter (fun t => !t.is_finished)).length

/-- A string with one trailing newline removed, if it has one: the part of
a string that Python's `$` anchor actually constrains. -/
def stripTrailingNewline (s : Str) : Str :=
  match s.getLast? with
  | some c => if c = '\n' then s.dropLast else s
  | none => s

/-- The shape `<non-space>@<non-space>.<non-space>` the specification
ascribes to contact addresses: some split into a nonempty part, a literal
at sign, a nonempty part, a literal dot and a nonempty part, with no
whitespace anywhere. -/
def EmailShape (t : Str) : Prop :=
  ∃ a b c, t = a ++ '@' :: (b ++ '.' :: c) ∧
    a ≠ [] ∧ b ≠ [] ∧ c ≠ [] ∧ ∀ ch ∈ t, isPySpace ch = false

lemma matchToks_nil (l : Str) : matchToks [] l = l.isEmpty := by
  cases l <;> rfl

lemma matchToks_lit_iff (c : Char) (ps : List RTok) (l : Str) :
    matchToks (RTok.lit c :: ps) l = true ↔
      ∃ l', l = c :: l' ∧ matchToks ps l' = true := by
  cases l with
  | nil =>
      simp [matchToks]
  | cons d l' =>
      simp only [matchToks, Bool.and_eq_true, beq_iff_eq]
      constructor
      · rintro ⟨rfl, hm⟩
        exact ⟨l', rfl, hm⟩
      · rintro ⟨l'', heq, hm⟩
        injection heq with h1 h2
        subst h1
        subst h2
        exact ⟨rfl, hm⟩

lemma matchToks_plus_iff (ps : List RTok) (l : Str) :
    matchToks (RTok.plusNonSpace :: ps) l = true ↔
      ∃ a r, l = a ++ r ∧ a ≠ [] ∧ (∀ ch ∈ a, isPySpace ch = false) ∧
        matchToks ps r = true := by
  induction l with
  | nil =>
      simp [matchToks]
  | cons d rest ih =>
      simp only [matchToks, Bool.and_eq_true, Bool.or_eq_true, Bool.not_eq_true']
      constructor
      · rintro ⟨hd, hm | hm⟩
        · exact ⟨[d], rest, rfl, by simp, by simp [hd], hm⟩
        · obtain ⟨a, r, heq, -, hns, hm'⟩ := ih.mp hm
          refine ⟨d :: a, r, by simp [heq], by simp, ?_, hm'⟩
          intro ch hch
          rcases List.mem_cons.mp hch with rfl | hch
          · exact hd
          · exact hns ch hch
      · rintro ⟨a, r, heq, hne, hns, hm⟩
        cases a with
        | nil => exact absurd rfl hne
        | cons d' a' =>
            simp only [List.cons_append] at heq
            injection heq with h1 hrest
            subst h1
            refine ⟨hns d (List.mem_cons_self ..), ?_⟩
            cases a' with
            | nil =>
                left
                simpa [hrest] using hm
            | cons e a'' =>
                right
                exact ih.mpr ⟨e :: a'', r, hrest, by simp,
                  fun ch hch => hns ch (List.mem_cons_of_mem _ hch), hm⟩

lemma matchToks_plus_single (l : Str) :
    matchToks [RTok.plusNonSpace] l = true ↔
      l ≠ [] ∧ ∀ ch ∈ l, isPySpace ch = false := by
  rw [matchToks_plus_iff]
  constructor
  · rintro ⟨a, r, rfl, hne, hns, hm⟩
    have hr : r = [] := by
      simpa [matchToks_nil, List.isEmpty_iff] using hm
    subst hr
    simpa using ⟨hne, hns⟩
  · rintro ⟨hne, hns⟩
    exact ⟨l, [], by simp, hne, hns, by simp [matchToks_nil]⟩

lemma matchToks_email_decomp (t : Str) :
    matchToks EMAIL_REGEX t = true ↔
      ∃ a b c, t = a ++ '@' :: (b ++ '.' :: c) ∧
        a ≠ [] ∧ b ≠ [] ∧ c ≠ [] ∧
        (∀ ch ∈ a, isPySpace ch = false) ∧
        (∀ ch ∈ b, isPySpace ch = false) ∧
        (∀ ch ∈ c, isPySpace ch = false) := by
  constructor
  · intro h
    obtain ⟨a, r1, rfl, ha, hnsa, h1⟩ := (matchToks_plus_iff _ _).mp h
    obtain ⟨r2, rfl, h2⟩ := (matchToks_lit_iff _ _ _).mp h1
    obtain ⟨b, r3, rfl, hb, hnsb, h3⟩ := (matchToks_plus_iff _ _).mp h2
    obtain ⟨r4, rfl, h4⟩ := (matchToks_lit_iff _ _ _).mp h3
    obtain ⟨hc, hnsc⟩ := (matchToks_plus_single _).mp h4
    exact ⟨a, b, r4, rfl, ha, hb, hc, hnsa, hnsb, hnsc⟩
  · rintro ⟨a, b, c, rfl, ha, hb, hc, hnsa, hnsb, hnsc⟩
    refine (matchToks_plus_iff _ _).mpr ⟨a, _, rfl, ha, hnsa, ?_⟩
    refine (matchToks_lit_iff _ _ _).mpr ⟨_, rfl, ?_⟩
    refine (matchToks_plus_iff _ _).mpr ⟨b, _, rfl, hb, hnsb, ?_⟩
    refine (matchToks_lit_iff _ _ _).mpr ⟨_, rfl, ?_⟩
    exact (matchToks_plus_single _).mpr ⟨hc, hnsc⟩

lemma matchToks_email_shape (t : Str) :
    matchToks EMAIL_REGEX t = true ↔ EmailShape t := by
  rw [matchToks_email_decomp]
  constructor
  · rintro ⟨a, b, c, rfl, ha, hb, hc, hnsa, hnsb, hnsc⟩
    refine ⟨a, b, c, rfl, ha, hb, hc, ?_⟩
    intro ch hch
    rcases List.mem_append.mp hch with hch | hch
    · exact hnsa ch hch
    · rcases List.mem_cons.mp hch with rfl | hch
      · decide
      · rcases List.mem_append.mp hch with hch | hch
        · exact hnsb ch hch
        · rcases List.mem_cons.mp hch with rfl | hch
          · decide
          · exact hnsc ch hch
  · rintro ⟨a, b, c, rfl, ha, hb, hc, hns⟩
    refine ⟨a, b, c, rfl, ha, hb, hc, ?_, ?_, ?_⟩
    · exact fun ch hch => hns ch (by simp [hch])
    · exact fun ch hch => hns ch (by simp [hch])
    · exact fun ch hch => hns ch (by simp [hch])

lemma EmailShape.ne_nil (h : EmailShape t) : t ≠ [] := by
  obtain ⟨a, b, c, rfl, -⟩ := h
  simp

lemma strip_concat (L : Str) (b : Char) :
    stripTrailingNewline (L ++ [b]) = if b = '\n' then L else L ++ [b] := by
  simp [stripTrailingNewline, List.getLast?_concat, List.dropLast_concat]

lemma usernameValid_iff (h : Str) :
    (check_length h 64 && reMatchPy USERNAME_REGEX h) = true ↔
      (h.length ≤ 64 ∧ stripTrailingNewline h ≠ [] ∧
        ∀ c ∈ stripTrailingNewline h, isPySpace c = false) := by
  rcases List.eq_nil_or_concat h with rfl | ⟨L, b, rfl⟩
  · simp [check_length, stripTrailingNewline]
  · simp only [List.concat_eq_append]
    by_cases hb : b = '\n'
    · subst hb
      have hfalse : matchToks USERNAME_REGEX (L ++ ['\n']) = false := by
        rcases hmt : matchToks USERNAME_REGEX (L ++ ['\n']) with _ | _
        · rfl
        · exfalso
          have hns := ((matchToks_plus_single _).mp hmt).2 '\n' (by simp)
          simp [isPySpace] at hns
      simp only [reMatchPy, check_length, List.getLast?_concat,
        List.dropLast_concat, hfalse, strip_concat, if_pos rfl,
        Bool.false_or, Bool.and_eq_true, decide_eq_true_iff,
        Bool.not_eq_true', beq_self_eq_true, Bool.true_and]
      rw [USERNAME_REGEX, matchToks_plus_single]
      simp [List.isEmpty_iff, and_assoc]
    · have hb' : (b == '\n') = false := by simp [hb]
      simp only [reMatchPy, check_length, List.getLast?_concat,
        List.dropLast_concat, hb', Bool.false_and, Bool.or_false,
        strip_concat, if_neg hb, Bool.and_eq_true, decide_eq_true_iff,
        Bool.not_eq_true']
      rw [USERNAME_REGEX, matchToks_plus_single]
      simp [List.isEmpty_iff, and_assoc]

lemma emailValid_iff (v : Str) :
    (check_length v 64 && reMatchPy EMAIL_REGEX v) = true ↔
      (v.length ≤ 64 ∧ EmailShape (stripTrailingNewline v)) := by
  rcases List.eq_nil_or_concat v with rfl | ⟨L, b, rfl⟩
  · simp only [check_length, stripTrailingNewline]
    simp only [List.isEmpty_nil, Bool.not_true, Bool.false_and, Bool.and_eq_true]
    constructor
    · rintro ⟨⟨⟩, -⟩
    · rintro ⟨-, hsh⟩
      exact absurd rfl hsh.ne_nil
  · simp only [List.concat_eq_append]
    by_cases hb : b = '\n'
    · subst hb
      have hfalse : matchToks EMAIL_REGEX (L ++ ['\n']) = false := by
        rcases hmt : matchToks EMAIL_REGEX (L ++ ['\n']) with _ | _
        · rfl
        · exfalso
          obtain ⟨-, -, -, -, -, -, -, hns⟩ := (matchToks_email_shape _).mp hmt
          have := hns '\n' (by simp)
          simp [isPySpace] at this
      simp only [reMatchPy, check_length, List.getLast?_concat,
        List.dropLast_concat, hfalse, strip_concat, if_pos rfl,
        Bool.false_or, Bool.and_eq_true, decide_eq_true_iff,
        Bool.not_eq_true', beq_self_eq_true, Bool.true_and]
      rw [matchToks_email_shape]
      simp [List.isEmpty_iff, and_assoc]
    · have hb' : (b == '\n') = false := by simp [hb]
      simp only [reMatchPy, check_length, List.getLast?_concat,
        List.dropLast_concat, hb', Bool.false_and, Bool.or_false,
        strip_concat, if_neg hb, Bool.and_eq_true, decide_eq_true_iff,
        Bool.not_eq_true']
      rw [matchToks_email_shape]
      constructor
      · rintro ⟨⟨-, hlen⟩, hsh⟩
        exact ⟨hlen, hsh⟩
      · rintro ⟨hlen, hsh⟩
        refine ⟨⟨?_, hlen⟩, hsh⟩
        simp

lemma length_filter_not_add (p : α → Bool) (l : List α) :
    (l.filter (fun a => !p a)).length + (l.filter p).length = l.length := by
  induction l with
  | nil => rfl
  | cons x xs ih =>
      cases hp : p x <;> simp [List.filter_cons, hp] <;> omega

/-- A fresh user record, all columns at their defaults. -/
def someUser : User := {}

/-- A concrete list, id 1. -/
def sampleList : TodoList := { id := 1, _title := some untitled }

/-- A concrete item store: three items owned by list 1 (one finished,
two open) and one item owned by list 2. -/
def sampleStore : List Todolist :=
  [ { id := 1, description := ['a'], is_finished := true,
      finished_at := some 4, Todolist_id := some 1 },
    { id := 2, description := ['b'], Todolist_id := some 1 },
    { id := 3, description := ['c'], Todolist_id := some 1 },
    { id := 4, description := ['d'], Todolist_id := some 2 } ]

/-- Claim C1: `save()` and `delete()` never surface an integrity error to
the caller: `save` always returns the entity itself, the committed store
after either call is the flushed store when no constraint is violated and
the unchanged old store when one is (silent rollback), and the underlying
`db.session.commit()` raises `IntegrityError` exactly in the violating
case — the exception is swallowed by `BaseModel.__commit`, so the caller
cannot tell a persisted result from a rolled-back one. -/
theorem C1_save_delete_silent_rollback {α : Type} [DecidableEq α]
    (violates : List α → Bool) (s : DbSession α) (e : α) :
    (BaseModel.save violates e s).1 = e ∧
    (BaseModel.save violates e s).2.committed =
      cond (violates (DbSession.flushed { s with adds := s.adds ++ [e] }))
        s.committed (DbSession.flushed { s with adds := s.adds ++ [e] }) ∧
    (rawCommit violates { s with adds := s.adds ++ [e] } =
        Except.error IntegrityError.unique ↔
      violates (DbSession.flushed { s with adds := s.adds ++ [e] }) = true) ∧
    (BaseModel.delete violates e s).committed =
      cond (violates (DbSession.flushed { s with dels := s.dels ++ [e] }))
        s.committed (DbSession.flushed { s with dels := s.dels ++ [e] }) ∧
    (rawCommit violates { s with dels := s.dels ++ [e] } =
        Except.error IntegrityError.unique ↔
      violates (DbSession.flushed { s with dels := s.dels ++ [e] }) = true) := by
  refine ⟨rfl, ?_, ?_, ?_, ?_⟩
  · unfold BaseModel.save BaseModel.commitPrivate rawCommit
    cases hv : violates (DbSession.flushed { s with adds := s.adds ++ [e] }) <;>
      simp [hv, sessionRollback]
  · unfold rawCommit
    cases hv : violates (DbSession.flushed { s with adds := s.adds ++ [e] }) <;>
      simp [hv]
  · unfold BaseModel.delete BaseModel.commitPrivate rawCommit
    cases hv : violates (DbSession.flushed { s with dels := s.dels ++ [e] }) <;>
      simp [hv, sessionRollback]
  · unfold rawCommit
    cases hv : violates (DbSession.flushed { s with dels := s.dels ++ [e] }) <;>
      simp [hv]

/-- Claim C2 counterexample: the two-character handle consisting of `a`
followed by a newline contains whitespace, yet the handle setter accepts
it and stores it (Python's `$` anchor matches before a trailing newline),
refuting the claim that every handle containing whitespace is rejected. -/
theorem C2_counterexample :
    isPySpace '\n' = true ∧ '\n' ∈ (['a', '\n'] : Str) ∧
    User.usernameSet someUser ['a', '\n'] =
      Except.ok { someUser with _username := some ['a', '\n'] } :=
  ⟨by decide, by decide, rfl⟩

/-- Claim C2 (amended): assigning handle `h` succeeds and stores exactly
`h` iff `h` has at most 64 characters and, after discarding the single
trailing newline the validator tolerates, is non-empty and contains no
whitespace; in every other case the setter fails with a validation error
(leaving the record unchanged). -/
theorem C2_handle_validation_amended (u : User) (h' : Str) :
    (User.usernameSet u h' = Except.ok { u with _username := some h' } ↔
      (h'.length ≤ 64 ∧ stripTrailingNewline h' ≠ [] ∧
        ∀ c ∈ stripTrailingNewline h', isPySpace c = false)) ∧
    (User.usernameSet u h' = Except.ok { u with _username := some h' } ∨
      User.usernameSet u h' = Except.error PyError.valueError) := by
  have hiff := usernameValid_iff h'
  unfold User.usernameSet
  rw [← Bool.not_and]
  cases hv : (check_length h' 64 && reMatchPy USERNAME_REGEX h')
  · rw [hv] at hiff
    simp only [Bool.not_false, if_true]
    exact ⟨by rw [← hiff]; simp, Or.inr (by trivial)⟩
  · rw [hv] at hiff
    simp only [Bool.not_true, if_false]
    exact ⟨by rw [← hiff]; simp, Or.inl rfl⟩

/-- Claim C3: every item state reachable through construction,
`finished()` and `reopen()` satisfies the consistency invariant:
finished implies a finish timestamp is present, open implies it is null. -/
theorem C3_item_consistency_invariant (t : Todolist)
    (ht : Todolist.Reachable t) :
    (t.is_finished = true → t.finished_at ≠ none) ∧
    (t.is_finished = false → t.finished_at = none) := by
  induction ht with
  | init d lid c ca now => simp [Todolist.init]
  | finish t now ht ih => simp [Todolist.finished]
  | reopen t ht ih => simp [Todolist.reopen]

/-- Witness for C3: the invariant holds at the concrete reachable state
obtained by constructing an item and finishing it. -/
theorem C3_witness :
    ((Todolist.finished 7 (Todolist.init ['t'] 1 none none 5)).is_finished = true →
      (Todolist.finished 7 (Todolist.init ['t'] 1 none none 5)).finished_at ≠ none) ∧
    ((Todolist.finished 7 (Todolist.init ['t'] 1 none none 5)).is_finished = false →
      (Todolist.finished 7 (Todolist.init ['t'] 1 none none 5)).finished_at = none) :=
  C3_item_consistency_invariant _
    (Todolist.Reachable.finish _ 7 (Todolist.Reachable.init ['t'] 1 none none 5))

/-- Claim C4: constructing a list without a title stores the placeholder
title `untitled`; constructing one whose title has 129 characters fails
with a validation error. -/
theorem C4_list_title_default_and_length (creator : Option Str)
    (created_at : Option Nat) (now : Nat) :
    TodoList.init none creator created_at now =
      Except.ok { _title := some untitled, creator := creator,
                  created_at := created_at.getD now } ∧
    (∀ t : Str, t.length = 129 →
      TodoList.init (some t) creator created_at now =
        Except.error PyError.valueError) := by
  refine ⟨rfl, ?_⟩
  intro t ht
  have hne : t.isEmpty = false := by
    cases t
    · simp at ht
    · simp
  unfold TodoList.init pyOrStr TodoList.titleSet check_length
  simp [hne, ht]

/-- Witness for C4: a 129-character title is rejected by the constructor. -/
theorem C4_witness :
    (List.replicate 129 'a').length = 129 ∧
    TodoList.init (some (List.replicate 129 'a')) none none 0 =
      Except.error PyError.valueError :=
  ⟨by simp, (C4_list_title_default_and_length none none 0).2 _ (by simp)⟩

/-- Claim C5: setting a non-empty secret stores its salted hash, after
which verification succeeds on the same plaintext and fails on the
plaintext extended by one character; setting an empty secret fails with a
validation error. -/
theorem C5_secret_roundtrip (u : User) (salt : Nat) (s : Str) :
    (s ≠ [] →
      User.passwordSet salt u s =
        Except.ok { u with password_hash := some (generate_password_hash salt s) } ∧
      User.verify_password
        { u with password_hash := some (generate_password_hash salt s) } s =
        Except.ok true ∧
      User.verify_password
        { u with password_hash := some (generate_password_hash salt s) }
        (s ++ ['x']) = Except.ok false) ∧
    User.passwordSet salt u [] = Except.error PyError.valueError := by
  refine ⟨?_, rfl⟩
  intro hs
  have hne : s.isEmpty = false := by
    cases s
    · exact absurd rfl hs
    · rfl
  have hgrow : s ≠ s ++ ['x'] := by
    intro hcontra
    have := congrArg List.length hcontra
    simp at this
  refine ⟨?_, ?_, ?_⟩
  · unfold User.passwordSet
    simp [hne, pwhashLen]
  · simp [User.verify_password, check_password_hash, generate_password_hash]
  · simp [User.verify_password, check_password_hash, generate_password_hash, hgrow]

/-- Witness for C5: the round trip at the concrete secret `p`. -/
theorem C5_witness :
    (['p'] : Str) ≠ [] ∧
    (User.passwordSet 3 someUser ['p'] =
      Except.ok { someUser with
        password_hash := some (generate_password_hash 3 ['p']) } ∧
     User.verify_password
       { someUser with password_hash := some (generate_password_hash 3 ['p']) }
       ['p'] = Except.ok true ∧
     User.verify_password
       { someUser with password_hash := some (generate_password_hash 3 ['p']) }
       (['p'] ++ ['x']) = Except.ok false) :=
  ⟨by simp, (C5_secret_roundtrip someUser 3 ['p']).1 (by simp)⟩

/-- Claim C6: reading the secret property always raises an access error,
for every user state. -/
theorem C6_secret_read_always_fails (u : User) :
    User.passwordGet u = Except.error PyError.attributeError := rfl

/-- Claim C7 counterexample: the address `a@b.c` followed by a newline
contains whitespace — so it does not have the claimed
`non-space@non-space.non-space` shape — yet the address setter accepts
and stores it, refuting the claimed if-and-only-if condition. -/
theorem C7_counterexample :
    isPySpace '\n' = true ∧
    '\n' ∈ (['a', '@', 'b', '.', 'c', '\n'] : Str) ∧
    User.emailSet someUser ['a', '@', 'b', '.', 'c', '\n'] =
      Except.ok { someUser with
        _email := some ['a', '@', 'b', '.', 'c', '\n'] } :=
  ⟨by decide, by decide, rfl⟩

/-- Claim C7 (amended): assigning contact address `v` succeeds and stores
exactly `v` iff `v` has at most 64 characters and, after discarding the
single trailing newline the validator tolerates, has the
`non-space@non-space.non-space` shape; in every other case the setter
fails with a validation error (leaving the record unchanged). -/
theorem C7_address_validation_amended (u : User) (v : Str) :
    (User.emailSet u v = Except.ok { u with _email := some v } ↔
      (v.length ≤ 64 ∧ EmailShape (stripTrailingNewline v))) ∧
    (User.emailSet u v = Except.ok { u with _email := some v } ∨
      User.emailSet u v = Except.error PyError.valueError) := by
  have hiff := emailValid_iff v
  unfold User.emailSet
  rw [← Bool.not_and]
  cases hv : (check_length v 64 && reMatchPy EMAIL_REGEX v)
  · rw [hv] at hiff
    simp only [Bool.not_false, if_true]
    exact ⟨by rw [← hiff]; simp, Or.inr (by trivial)⟩
  · rw [hv] at hiff
    simp only [Bool.not_true, if_false]
    exact ⟨by rw [← hiff]; simp, Or.inl rfl⟩

/-- Claim C8: the three derived counts of a list are live queries over
the items whose foreign key points at the list: total is the number of
owned items, finished/open count the owned items by their flag, total
always equals open plus finished, and on the concrete store with three
owned items of which one is finished they are 3, 1 and 2. -/
theorem C8_derived_counts (store : List Todolist) (l : TodoList) :
    TodoList.todo_count store l =
      (store.filter (fun t => t.Todolist_id == some l.id)).length ∧
    TodoList.finished_count store l =
      ((store.filter (fun t => t.Todolist_id == some l.id)).filter
        (fun t => t.is_finished)).length ∧
    TodoList.open_count store l =
      ((store.filter (fun t => t.Todolist_id == some l.id)).filter
        (fun t => !t.is_finished)).length ∧
    TodoList.todo_count store l =
      TodoList.open_count store l + TodoList.finished_count store l ∧
    TodoList.todo_count sampleStore sampleList = 3 ∧
    TodoList.finished_count sampleStore sampleList = 1 ∧
    TodoList.open_count sampleStore sampleList = 2 := by
  refine ⟨rfl, rfl, rfl, ?_, by decide, by decide, by decide⟩
  exact (length_filter_not_add (fun t => t.is_finished) (TodoList.todos store l)).symm

/-- Claim C9: constructing a list with an empty title string silently
substitutes the placeholder (the constructor's `or` treats the empty
string like `None`), although the title setter rejects the empty string
on an existing list; consequently every successfully constructed list has
a non-empty title. -/
theorem C9_empty_title_constructor (creator : Option Str)
    (created_at : Option Nat) (now : Nat) :
    TodoList.init (some []) creator created_at now =
      Except.ok { _title := some untitled, creator := creator,
                  created_at := created_at.getD now } ∧
    (∀ l : TodoList, TodoList.titleSet l [] = Except.error PyError.valueError) ∧
    (∀ (title : Option Str) (c : Option Str) (ca : Option Nat) (n : Nat)
        (l : TodoList),
      TodoList.init title c ca n = Except.ok l →
      ∃ t, l._title = some t ∧ t ≠ []) := by
  refine ⟨rfl, fun l => rfl, ?_⟩
  intro title c ca n l hinit
  unfold TodoList.init TodoList.titleSet at hinit
  cases hc : check_length (pyOrStr title untitled) 128 with
  | false =>
      rw [hc] at hinit
      simp at hinit
  | true =>
      rw [hc] at hinit
      simp only [Bool.not_true, if_false] at hinit
      have hne : pyOrStr title untitled ≠ [] := by
        intro hcontra
        rw [hcontra] at hc
        simp [check_length] at hc
      injection hinit with hrec
      refine ⟨pyOrStr title untitled, ?_, hne⟩
      rw [← hrec]

/-- Witness for C9: the list constructed with the one-character title `x`
has a non-empty title. -/
theorem C9_witness :
    ∃ t, ({ _title := some ['x'] } : TodoList)._title = some t ∧ t ≠ [] :=
  (C9_empty_title_constructor none none 0).2.2 (some ['x']) none none 0
    { _title := some ['x'] } rfl

/-- Claim C10: on a user whose secret was never set (stored digest null),
verification raises an error for every plaintext instead of returning
false. -/
theorem C10_verify_unset_secret_raises (u : User) (p : Str)
    (hnull : u.password_hash = none) :
    User.verify_password u p = Except.error PyError.attributeError := by
  simp [User.verify_password, hnull, check_password_hash]

/-- Witness for C10: a fresh user has a null digest and verification of
any plaintext errors out. -/
theorem C10_witness :
    someUser.password_hash = none ∧
    User.verify_password someUser ['p'] = Except.error PyError.attributeError :=
  ⟨rfl, C10_verify_unset_secret_raises someUser ['p'] rfl⟩

end TaskKeeper
